import Mathlib

/-!
Verification of the `ncs` binding façade (src/ncs.h, src/ncs.cpp).

The repository is a thin C shim exposing the Intel Movidius NCS driver API
(`ncDeviceCreate`, `ncGraphAllocate`, ...) as plain functions over `void*`
handles.  Every wrapper casts its arguments and delegates to exactly one
driver call, returning the driver's status cast to `int`.

Shallow embedding:
* all pointer-typed arguments (`void*`, `void**`, `const void*`,
  `unsigned int*`, `const char*`, `struct ncTensorDescriptor_t*`) are
  modelled as addresses of type `Ptr := Nat`, with `0` the null pointer;
  the C pointer casts `(struct ncDeviceHandle_t*) p` etc. are identities at
  the address level;
* the wrapped driver is external to the repository, so it is modelled as an
  abstract transition function `Driver.step` over a `World`, which pairs the
  driver's internal state with the caller-visible memory the driver may write
  through out-parameters (handle cells, option buffers, length cells); each
  cell holds a `Nat`;
* `ncStatus_t` is an int-valued driver enumeration; its value (what the C
  cast `int(s)` yields byte-identically) is modelled directly as `Int`;
* each façade function additionally returns the list of driver invocations it
  performed (the trace), so "calls the driver exactly once with unchanged
  arguments" is expressible.
-/

/-- Machine pointers are modelled as addresses; `0` is the null pointer. -/
abbrev Ptr := Nat

/-- The null pointer (`NULL`). -/
def NULL : Ptr := 0

/-- The driver's FIFO direction enumeration `ncFifoType_t` from the wrapped
driver header (`NC_FIFO_HOST_RO`: host-read-only, `NC_FIFO_HOST_WO`:
host-write-only), re-exported by src/ncs.h. -/
inductive ncFifoType_t where
  | NC_FIFO_HOST_RO
  | NC_FIFO_HOST_WO
deriving DecidableEq, Repr

/-- The driver's FIFO element data-type enumeration `ncFifoDataType_t`
(16-bit and 32-bit floating point), re-exported by src/ncs.h. -/
inductive ncFifoDataType_t where
  | NC_FIFO_FP16
  | NC_FIFO_FP32
deriving DecidableEq, Repr

/-- The observable world a driver call acts on: the driver's internal state
`drv` (abstract, of type `σ`) together with the caller-visible memory `mem`
the driver may write through out-parameter pointers. -/
structure World (σ : Type) where
  drv : σ
  mem : Ptr → Nat

/-- One invocation of a wrapped driver entry point, with the arguments the
façade passes to it.  This is the alphabet of the façade's call traces. -/
inductive DrvCall where
  | deviceCreate (idx : Int) (deviceHandle : Ptr)
  | deviceOpen (deviceHandle : Ptr)
  | deviceClose (deviceHandle : Ptr)
  | deviceDestroy (deviceHandle : Ptr)
  | deviceGetOption (deviceHandle : Ptr) (option : Int) (data : Ptr) (dataLength : Ptr)
  | graphCreate (name : Ptr) (graphHandle : Ptr)
  | graphAllocate (deviceHandle : Ptr) (graphHandle : Ptr) (graphBuffer : Ptr)
      (graphBufferLength : Nat)
  | graphAllocateWithFifosEx (deviceHandle : Ptr) (graphHandle : Ptr) (graphBuffer : Ptr)
      (graphBufferLength : Nat)
      (inFifoHandle : Ptr) (inFifoType : ncFifoType_t) (inNumElem : Int)
      (inDataType : ncFifoDataType_t)
      (outFifoHandle : Ptr) (outFifoType : ncFifoType_t) (outNumElem : Int)
      (outDataType : ncFifoDataType_t)
  | graphQueueInference (graphHandle : Ptr) (inFifoHandle : Ptr) (inFifoCount : Nat)
      (outFifoHandle : Ptr) (outFifoCount : Nat)
  | graphQueueInferenceWithFifoElem (graphHandle : Ptr) (inFifoHandle : Ptr)
      (outFifoHandle : Ptr) (inputTensor : Ptr) (inputTensorLength : Ptr) (userParam : Ptr)
  | graphGetOption (graphHandle : Ptr) (option : Int) (data : Ptr) (dataLength : Ptr)
  | graphDestroy (graphHandle : Ptr)
  | fifoCreate (name : Ptr) (type : ncFifoType_t) (fifoHandle : Ptr)
  | fifoAllocate (fifoHandle : Ptr) (deviceHandle : Ptr) (tensorDesc : Ptr) (numElem : Nat)
  | fifoGetOption (fifoHandle : Ptr) (option : Int) (data : Ptr) (dataLength : Ptr)
  | fifoWriteElem (fifoHandle : Ptr) (inputTensor : Ptr) (inputTensorLength : Ptr)
      (userParam : Ptr)
  | fifoReadElem (fifoHandle : Ptr) (outputData : Ptr) (outputDataLen : Ptr) (userParam : Ptr)
  | fifoDestroy (fifoHandle : Ptr)
deriving DecidableEq, Repr

/-- The external accelerator driver, abstract over its internal state type:
one transition function taking the current world and a call, returning the
new world and the `ncStatus_t` value of the call. -/
structure Driver (σ : Type) where
  step : World σ → DrvCall → World σ × Int

/-- Pointwise memory update (used by concrete mock drivers and by the
caller-side test harness, not by the façade itself). -/
def memUpd (m : Ptr → Nat) (p : Ptr) (v : Nat) : Ptr → Nat :=
  fun q => if q = p then v else m q

variable {σ : Type}

/-- Embeds `ncs_DeviceCreate` (src/ncs.cpp lines 4-7): casts `deviceHandle`
to `ncDeviceHandle_t**`, calls `ncDeviceCreate` once, returns `int(s)`. -/
def ncs_DeviceCreate (D : Driver σ) (w : World σ) (idx : Int) (deviceHandle : Ptr) :
    World σ × Int × List DrvCall :=
  let c := DrvCall.deviceCreate idx deviceHandle
  let r := D.step w c
  (r.1, r.2, [c])

/-- Embeds `ncs_DeviceOpen` (src/ncs.cpp lines 9-12). -/
def ncs_DeviceOpen (D : Driver σ) (w : World σ) (deviceHandle : Ptr) :
    World σ × Int × List DrvCall :=
  let c := DrvCall.deviceOpen deviceHandle
  let r := D.step w c
  (r.1, r.2, [c])

/-- Embeds `ncs_DeviceClose` (src/ncs.cpp lines 14-17). -/
def ncs_DeviceClose (D : Driver σ) (w : World σ) (deviceHandle : Ptr) :
    World σ × Int × List DrvCall :=
  let c := DrvCall.deviceClose deviceHandle
  let r := D.step w c
  (r.1, r.2, [c])

/-- Embeds `ncs_DeviceDestroy` (src/ncs.cpp lines 19-22): passes the address
of the caller's handle variable to `ncDeviceDestroy` unchanged. -/
def ncs_DeviceDestroy (D : Driver σ) (w : World σ) (deviceHandle : Ptr) :
    World σ × Int × List DrvCall :=
  let c := DrvCall.deviceDestroy deviceHandle
  let r := D.step w c
  (r.1, r.2, [c])

/-- Modelled from the spec: `ncs_DeviceGetOption` is declared in src/ncs.h
(line 17) but src/ncs.cpp contains no definition for it.  Per the spec it is
a transparent forward of the driver's device get-option call: "get-option
(given handle, an option identifier, and an output buffer with capacity) →
fills buffer, returns actual length written", with the filling done by the
driver through the `data` and `dataLength` out-pointers. -/
def ncs_DeviceGetOption (D : Driver σ) (w : World σ) (deviceHandle : Ptr) (option : Int)
    (data : Ptr) (dataLength : Ptr) : World σ × Int × List DrvCall :=
  let c := DrvCall.deviceGetOption deviceHandle option data dataLength
  let r := D.step w c
  (r.1, r.2, [c])

/-- Embeds `ncs_GraphCreate` (src/ncs.cpp lines 24-27); `name` is the
`const char*` argument, modelled as the address of the string. -/
def ncs_GraphCreate (D : Driver σ) (w : World σ) (name : Ptr) (graphHandle : Ptr) :
    World σ × Int × List DrvCall :=
  let c := DrvCall.graphCreate name graphHandle
  let r := D.step w c
  (r.1, r.2, [c])

/-- Embeds `ncs_GraphAllocate` (src/ncs.cpp lines 29-33). -/
def ncs_GraphAllocate (D : Driver σ) (w : World σ) (deviceHandle : Ptr) (graphHandle : Ptr)
    (graphBuffer : Ptr) (graphBufferLength : Nat) : World σ × Int × List DrvCall :=
  let c := DrvCall.graphAllocate deviceHandle graphHandle graphBuffer graphBufferLength
  let r := D.step w c
  (r.1, r.2, [c])

/-- Embeds `ncs_GraphAllocateWithFifosEx` (src/ncs.cpp lines 45-51): one call
to the driver's `ncGraphAllocateWithFifosEx` with all twelve arguments
forwarded. -/
def ncs_GraphAllocateWithFifosEx (D : Driver σ) (w : World σ) (deviceHandle : Ptr)
    (graphHandle : Ptr) (graphBuffer : Ptr) (graphBufferLength : Nat)
    (inFifoHandle : Ptr) (inFifoType : ncFifoType_t) (inNumElem : Int)
    (inDataType : ncFifoDataType_t)
    (outFifoHandle : Ptr) (outFifoType : ncFifoType_t) (outNumElem : Int)
    (outDataType : ncFifoDataType_t) : World σ × Int × List DrvCall :=
  let c := DrvCall.graphAllocateWithFifosEx deviceHandle graphHandle graphBuffer
    graphBufferLength inFifoHandle inFifoType inNumElem inDataType
    outFifoHandle outFifoType outNumElem outDataType
  let r := D.step w c
  (r.1, r.2, [c])

/-- Embeds `ncs_GraphAllocateWithFifos` (src/ncs.cpp lines 35-42): delegates
to `ncs_GraphAllocateWithFifosEx` with the literal defaults
`NC_FIFO_HOST_WO, 2, NC_FIFO_FP32` for the input FIFO and
`NC_FIFO_HOST_RO, 2, NC_FIFO_FP32` for the output FIFO, returning `int(s)`. -/
def ncs_GraphAllocateWithFifos (D : Driver σ) (w : World σ) (deviceHandle : Ptr)
    (graphHandle : Ptr) (graphBuffer : Ptr) (graphBufferLength : Nat)
    (inFifoHandle : Ptr) (outFifoHandle : Ptr) : World σ × Int × List DrvCall :=
  ncs_GraphAllocateWithFifosEx D w deviceHandle graphHandle graphBuffer graphBufferLength
    inFifoHandle ncFifoType_t.NC_FIFO_HOST_WO 2 ncFifoDataType_t.NC_FIFO_FP32
    outFifoHandle ncFifoType_t.NC_FIFO_HOST_RO 2 ncFifoDataType_t.NC_FIFO_FP32

/-- Modelled from the spec: `ncs_GraphQueueInference` is declared in src/ncs.h
(lines 32-34) but src/ncs.cpp contains no definition for it.  Per the spec the
most complete variant of the binding forwards it transparently to the driver's
queue-inference call. -/
def ncs_GraphQueueInference (D : Driver σ) (w : World σ) (graphHandle : Ptr)
    (inFifoHandle : Ptr) (inFifoCount : Nat) (outFifoHandle : Ptr) (outFifoCount : Nat) :
    World σ × Int × List DrvCall :=
  let c := DrvCall.graphQueueInference graphHandle inFifoHandle inFifoCount
    outFifoHandle outFifoCount
  let r := D.step w c
  (r.1, r.2, [c])

/-- Modelled from the spec: `ncs_GraphQueueInferenceWithFifoElem` is declared
in src/ncs.h (lines 35-36) but src/ncs.cpp contains no definition for it.
Per the spec it is a transparent forward of the corresponding driver call. -/
def ncs_GraphQueueInferenceWithFifoElem (D : Driver σ) (w : World σ) (graphHandle : Ptr)
    (inFifoHandle : Ptr) (outFifoHandle : Ptr) (inputTensor : Ptr)
    (inputTensorLength : Ptr) (userParam : Ptr) : World σ × Int × List DrvCall :=
  let c := DrvCall.graphQueueInferenceWithFifoElem graphHandle inFifoHandle outFifoHandle
    inputTensor inputTensorLength userParam
  let r := D.step w c
  (r.1, r.2, [c])

/-- Modelled from the spec: `ncs_GraphGetOption` is declared in src/ncs.h
(line 37) but src/ncs.cpp contains no definition for it.  Per the spec it is a
transparent forward of the driver's graph get-option call. -/
def ncs_GraphGetOption (D : Driver σ) (w : World σ) (graphHandle : Ptr) (option : Int)
    (data : Ptr) (dataLength : Ptr) : World σ × Int × List DrvCall :=
  let c := DrvCall.graphGetOption graphHandle option data dataLength
  let r := D.step w c
  (r.1, r.2, [c])

/-- Embeds `ncs_GraphDestroy` (src/ncs.cpp lines 53-56). -/
def ncs_GraphDestroy (D : Driver σ) (w : World σ) (graphHandle : Ptr) :
    World σ × Int × List DrvCall :=
  let c := DrvCall.graphDestroy graphHandle
  let r := D.step w c
  (r.1, r.2, [c])

/-- Embeds `ncs_FifoCreate` (src/ncs.cpp lines 58-61). -/
def ncs_FifoCreate (D : Driver σ) (w : World σ) (name : Ptr) (type : ncFifoType_t)
    (fifoHandle : Ptr) : World σ × Int × List DrvCall :=
  let c := DrvCall.fifoCreate name type fifoHandle
  let r := D.step w c
  (r.1, r.2, [c])

/-- Embeds `ncs_FifoAllocate` (src/ncs.cpp lines 63-67); `tensorDesc` is the
`struct ncTensorDescriptor_t*` argument, forwarded as an address. -/
def ncs_FifoAllocate (D : Driver σ) (w : World σ) (fifoHandle : Ptr) (deviceHandle : Ptr)
    (tensorDesc : Ptr) (numElem : Nat) : World σ × Int × List DrvCall :=
  let c := DrvCall.fifoAllocate fifoHandle deviceHandle tensorDesc numElem
  let r := D.step w c
  (r.1, r.2, [c])

/-- Modelled from the spec: the `OptionsData` struct type taken by
`ncs_FifoGetOption` in src/ncs.cpp is not defined anywhere under src/.  Per
the spec it is "an options-data structure carrying a fixed-capacity byte
buffer and its in/out length".  `OptionsData.dataAddr p` is the address of
the `data` buffer member of the struct at address `p` (the buffer is laid out
first), and `OptionsData.lengthAddr p` the address of its `length` member,
laid out after the buffer; the buffer capacity is not pinned by the spec and
`256` is a representative fixed constant. -/
def OptionsData.dataAddr (optionsData : Ptr) : Ptr := optionsData

/-- Address of the `length` member of the `OptionsData` struct at address
`optionsData` (see `OptionsData.dataAddr`). -/
def OptionsData.lengthAddr (optionsData : Ptr) : Ptr := optionsData + 256

/-- Embeds `ncs_FifoGetOption` (src/ncs.cpp lines 68-71): unlike every other
wrapper it performs the member accesses `optionsData->data` and
`&(optionsData->length)` on the caller's struct itself before delegating to
`ncFifoGetOption`.  On a null `optionsData` that member access is a fault
inside the façade (undefined behaviour before any driver call), modelled as
`none`; otherwise it passes the addresses of the two members to the driver. -/
def ncs_FifoGetOption (D : Driver σ) (w : World σ) (fifoHandle : Ptr) (option : Int)
    (optionsData : Ptr) : Option (World σ × Int × List DrvCall) :=
  if optionsData = NULL then none
  else
    let c := DrvCall.fifoGetOption fifoHandle option (OptionsData.dataAddr optionsData)
      (OptionsData.lengthAddr optionsData)
    let r := D.step w c
    some (r.1, r.2, [c])

/-- Embeds `ncs_FifoWriteElem` (src/ncs.cpp lines 73-76). -/
def ncs_FifoWriteElem (D : Driver σ) (w : World σ) (fifoHandle : Ptr) (inputTensor : Ptr)
    (inputTensorLength : Ptr) (userParam : Ptr) : World σ × Int × List DrvCall :=
  let c := DrvCall.fifoWriteElem fifoHandle inputTensor inputTensorLength userParam
  let r := D.step w c
  (r.1, r.2, [c])

/-- Embeds `ncs_FifoReadElem` (src/ncs.cpp lines 78-81). -/
def ncs_FifoReadElem (D : Driver σ) (w : World σ) (fifoHandle : Ptr) (outputData : Ptr)
    (outputDataLen : Ptr) (userParam : Ptr) : World σ × Int × List DrvCall :=
  let c := DrvCall.fifoReadElem fifoHandle outputData outputDataLen userParam
  let r := D.step w c
  (r.1, r.2, [c])

/-- Embeds `ncs_FifoDestroy` (src/ncs.cpp lines 83-86). -/
def ncs_FifoDestroy (D : Driver σ) (w : World σ) (fifoHandle : Ptr) :
    World σ × Int × List DrvCall :=
  let c := DrvCall.fifoDestroy fifoHandle
  let r := D.step w c
  (r.1, r.2, [c])

/-- `NC_OK`, the driver's success status.  Modelled from the spec: the status
enumeration is owned by the driver; success is its zero value (`int(NC_OK) = 0`). -/
def NC_OK : Int := 0

/-- One invocation of a façade entry point with its arguments: the alphabet
over which the façade is viewed as a single dispatch function (used to state
statelessness of the whole translation unit at once). -/
inductive FacadeCall where
  | deviceCreate (idx : Int) (deviceHandle : Ptr)
  | deviceOpen (deviceHandle : Ptr)
  | deviceClose (deviceHandle : Ptr)
  | deviceDestroy (deviceHandle : Ptr)
  | graphCreate (name : Ptr) (graphHandle : Ptr)
  | graphAllocate (deviceHandle : Ptr) (graphHandle : Ptr) (graphBuffer : Ptr)
      (graphBufferLength : Nat)
  | graphAllocateWithFifos (deviceHandle : Ptr) (graphHandle : Ptr) (graphBuffer : Ptr)
      (graphBufferLength : Nat) (inFifoHandle : Ptr) (outFifoHandle : Ptr)
  | graphAllocateWithFifosEx (deviceHandle : Ptr) (graphHandle : Ptr) (graphBuffer : Ptr)
      (graphBufferLength : Nat)
      (inFifoHandle : Ptr) (inFifoType : ncFifoType_t) (inNumElem : Int)
      (inDataType : ncFifoDataType_t)
      (outFifoHandle : Ptr) (outFifoType : ncFifoType_t) (outNumElem : Int)
      (outDataType : ncFifoDataType_t)
  | graphDestroy (graphHandle : Ptr)
  | fifoCreate (name : Ptr) (type : ncFifoType_t) (fifoHandle : Ptr)
  | fifoAllocate (fifoHandle : Ptr) (deviceHandle : Ptr) (tensorDesc : Ptr) (numElem : Nat)
  | fifoGetOption (fifoHandle : Ptr) (option : Int) (optionsData : Ptr)
  | fifoWriteElem (fifoHandle : Ptr) (inputTensor : Ptr) (inputTensorLength : Ptr)
      (userParam : Ptr)
  | fifoReadElem (fifoHandle : Ptr) (outputData : Ptr) (outputDataLen : Ptr) (userParam : Ptr)
  | fifoDestroy (fifoHandle : Ptr)
deriving DecidableEq, Repr

/-- Dispatches one façade invocation to the corresponding wrapper defined in
src/ncs.cpp (`none` only for the fault case of `ncs_FifoGetOption`). -/
def facadeRun (D : Driver σ) (w : World σ) : FacadeCall → Option (World σ × Int × List DrvCall)
  | .deviceCreate idx p => some (ncs_DeviceCreate D w idx p)
  | .deviceOpen p => some (ncs_DeviceOpen D w p)
  | .deviceClose p => some (ncs_DeviceClose D w p)
  | .deviceDestroy p => some (ncs_DeviceDestroy D w p)
  | .graphCreate name p => some (ncs_GraphCreate D w name p)
  | .graphAllocate dh gh gb gbl => some (ncs_GraphAllocate D w dh gh gb gbl)
  | .graphAllocateWithFifos dh gh gb gbl inF outF =>
      some (ncs_GraphAllocateWithFifos D w dh gh gb gbl inF outF)
  | .graphAllocateWithFifosEx dh gh gb gbl inF ift ine idt outF oft one odt =>
      some (ncs_GraphAllocateWithFifosEx D w dh gh gb gbl inF ift ine idt outF oft one odt)
  | .graphDestroy p => some (ncs_GraphDestroy D w p)
  | .fifoCreate name t p => some (ncs_FifoCreate D w name t p)
  | .fifoAllocate fh dh td ne => some (ncs_FifoAllocate D w fh dh td ne)
  | .fifoGetOption fh opt od => ncs_FifoGetOption D w fh opt od
  | .fifoWriteElem fh it itl up => some (ncs_FifoWriteElem D w fh it itl up)
  | .fifoReadElem fh od odl up => some (ncs_FifoReadElem D w fh od odl up)
  | .fifoDestroy p => some (ncs_FifoDestroy D w p)

/-- A fixed world over a unit driver state, used by concrete mock drivers. -/
def world0 : World Unit := { drv := (), mem := fun _ => 0 }

/-- A mock driver that ignores the incoming world entirely and always answers
with the same world and `NC_OK`. -/
def constDriver : Driver Unit := { step := fun _ _ => (world0, NC_OK) }

/-- A mock driver implementing the spec's destroy semantics: on any destroy
call it stores `NULL` into the caller's handle cell and reports success. -/
def nullingDriver : Driver Unit :=
  { step := fun w c =>
      match c with
      | .deviceDestroy p => ({ w with mem := memUpd w.mem p NULL }, NC_OK)
      | .graphDestroy p => ({ w with mem := memUpd w.mem p NULL }, NC_OK)
      | .fifoDestroy p => ({ w with mem := memUpd w.mem p NULL }, NC_OK)
      | _ => (w, NC_OK) }

/-- A mock driver implementing the spec's device get-option semantics: it
writes the option value `42` into the caller's buffer and the actual length
`4` into the caller's length cell, reporting success. -/
def fillDriver : Driver Unit :=
  { step := fun w c =>
      match c with
      | .deviceGetOption _ _ data dataLength =>
          ({ w with mem := memUpd (memUpd w.mem data 42) dataLength 4 }, NC_OK)
      | _ => (w, NC_OK) }

/-- Transition function of the order-preserving echo driver from the spec's
FIFO test property: its state is the queue contents; a FIFO write enqueues
the value the caller stored at `inputTensor`, a FIFO read dequeues the oldest
value into `outputData` (status `-2` on an empty queue). -/
def echoStep : World (List Nat) → DrvCall → World (List Nat) × Int
  | w, .fifoWriteElem _ inputTensor _ _ => ({ w with drv := w.drv ++ [w.mem inputTensor] }, NC_OK)
  | w, .fifoReadElem _ outputData _ _ =>
      match w.drv with
      | [] => (w, -2)
      | x :: rest => ({ drv := rest, mem := memUpd w.mem outputData x }, NC_OK)
  | w, _ => (w, NC_OK)

/-- The order-preserving echo mock driver (see `echoStep`). -/
def echoDriver : Driver (List Nat) := { step := echoStep }

/-- A mock device driver whose state records whether the device is open:
open sets it, close on an open device clears it with success, close on a
closed device reports the driver's "not open" error `-8` without touching
anything. -/
def mockDevStep : World Bool → DrvCall → World Bool × Int
  | w, .deviceOpen _ => ({ w with drv := true }, NC_OK)
  | w, .deviceClose _ => if w.drv then ({ w with drv := false }, NC_OK) else (w, -8)
  | w, _ => (w, NC_OK)

/-- The mock device driver (see `mockDevStep`). -/
def mockDevDriver : Driver Bool := { step := mockDevStep }

/-- Caller-side harness for the FIFO ordering property: for each element of
`xs` in order, store it in the caller's input buffer at `bufIn` and submit it
through `ncs_FifoWriteElem`. -/
def writeSeq (D : Driver σ) (fifo : Ptr) (bufIn : Ptr) (lenPtr : Ptr) (up : Ptr) :
    World σ → List Nat → World σ
  | w, [] => w
  | w, x :: xs =>
      writeSeq D fifo bufIn lenPtr up
        (ncs_FifoWriteElem D { w with mem := memUpd w.mem bufIn x } fifo bufIn lenPtr up).1 xs

/-- Caller-side harness for the FIFO ordering property: call
`ncs_FifoReadElem` `n` times, collecting after each call the value the driver
deposited in the caller's output buffer at `bufOut`. -/
def readSeq (D : Driver σ) (fifo : Ptr) (bufOut : Ptr) (lenPtr : Ptr) (upOut : Ptr) :
    World σ → Nat → List Nat × World σ
  | w, 0 => ([], w)
  | w, n + 1 =>
      let w1 := (ncs_FifoReadElem D w fifo bufOut lenPtr upOut).1
      let r := readSeq D fifo bufOut lenPtr upOut w1 n
      (w1.mem bufOut :: r.1, r.2)

/-- Writing a list of elements through the façade to the echo driver appends
exactly those elements, in order, to the driver's queue. -/
theorem writeSeq_echo_drv (fifo bufIn lenPtr up : Ptr) (xs : List Nat)
    (w : World (List Nat)) :
    (writeSeq echoDriver fifo bufIn lenPtr up w xs).drv = w.drv ++ xs := by
  induction xs generalizing w with
  | nil => simp [writeSeq]
  | cons x xs ih =>
      rw [writeSeq, ih]
      simp [ncs_FifoWriteElem, echoDriver, echoStep, memUpd]

/-- Reading `n` elements through the façade from the echo driver yields the
first `n` elements of the driver's queue, in queue order. -/
theorem readSeq_echo_take (fifo bufOut lenPtr upOut : Ptr) :
    ∀ (n : Nat) (w : World (List Nat)), n ≤ w.drv.length →
      (readSeq echoDriver fifo bufOut lenPtr upOut w n).1 = w.drv.take n := by
  intro n
  induction n with
  | zero => intro w _; simp [readSeq]
  | succ n ih =>
      intro w hle
      obtain ⟨q, m⟩ := w
      match q with
      | [] => simp at hle
      | x :: rest =>
          have hle2 : n ≤ rest.length := by simpa using hle
          have hw1 : (ncs_FifoReadElem echoDriver ⟨x :: rest, m⟩ fifo bufOut lenPtr upOut).1
              = (⟨rest, memUpd m bufOut x⟩ : World (List Nat)) := rfl
          simp only [readSeq, hw1, ih ⟨rest, memUpd m bufOut x⟩ hle2]
          simp [memUpd]

/-- C1: for every façade operation of src/ncs.cpp and every status value the
underlying driver returns for that call, the integer the façade returns to
the caller equals that driver status byte-identically: it is the C cast
`int(s)` of the very status the driver produced, for every driver behaviour,
so no status value is remapped, suppressed, or replaced. -/
theorem ncs_c1_status_passthrough (D : Driver σ) (w : World σ)
    (idx option inNe outNe : Int) (dh gh fh gb td name buf len up od : Ptr)
    (gbl ne : Nat) (ft oft : ncFifoType_t) (dt odt : ncFifoDataType_t)
    (hod : od ≠ NULL) :
    (ncs_DeviceCreate D w idx dh).2.1 = (D.step w (.deviceCreate idx dh)).2
  ∧ (ncs_DeviceOpen D w dh).2.1 = (D.step w (.deviceOpen dh)).2
  ∧ (ncs_DeviceClose D w dh).2.1 = (D.step w (.deviceClose dh)).2
  ∧ (ncs_DeviceDestroy D w dh).2.1 = (D.step w (.deviceDestroy dh)).2
  ∧ (ncs_GraphCreate D w name gh).2.1 = (D.step w (.graphCreate name gh)).2
  ∧ (ncs_GraphAllocate D w dh gh gb gbl).2.1 = (D.step w (.graphAllocate dh gh gb gbl)).2
  ∧ (ncs_GraphAllocateWithFifosEx D w dh gh gb gbl buf ft inNe dt len oft outNe odt).2.1
      = (D.step w (.graphAllocateWithFifosEx dh gh gb gbl buf ft inNe dt len oft outNe odt)).2
  ∧ (ncs_GraphAllocateWithFifos D w dh gh gb gbl buf len).2.1
      = (D.step w (.graphAllocateWithFifosEx dh gh gb gbl
          buf .NC_FIFO_HOST_WO 2 .NC_FIFO_FP32 len .NC_FIFO_HOST_RO 2 .NC_FIFO_FP32)).2
  ∧ (ncs_GraphDestroy D w gh).2.1 = (D.step w (.graphDestroy gh)).2
  ∧ (ncs_FifoCreate D w name ft fh).2.1 = (D.step w (.fifoCreate name ft fh)).2
  ∧ (ncs_FifoAllocate D w fh dh td ne).2.1 = (D.step w (.fifoAllocate fh dh td ne)).2
  ∧ (ncs_FifoGetOption D w fh option od).map (fun r => r.2.1)
      = some (D.step w (.fifoGetOption fh option
          (OptionsData.dataAddr od) (OptionsData.lengthAddr od))).2
  ∧ (ncs_FifoWriteElem D w fh buf len up).2.1 = (D.step w (.fifoWriteElem fh buf len up)).2
  ∧ (ncs_FifoReadElem D w fh buf len up).2.1 = (D.step w (.fifoReadElem fh buf len up)).2
  ∧ (ncs_FifoDestroy D w fh).2.1 = (D.step w (.fifoDestroy fh)).2 := by
  refine ⟨rfl, rfl, rfl, rfl, rfl, rfl, rfl, rfl, rfl, rfl, rfl, ?_, rfl, rfl, rfl⟩
  simp [ncs_FifoGetOption, hod]

/-- Closed witness for C1: the hypotheses are satisfiable; at a concrete
driver, world and arguments the device-create status is the driver's own. -/
theorem ncs_c1_w :
    (5 : Ptr) ≠ NULL
  ∧ (ncs_DeviceCreate constDriver world0 0 5).2.1
      = (constDriver.step world0 (.deviceCreate 0 5)).2 :=
  ⟨by decide,
   (ncs_c1_status_passthrough constDriver world0 0 0 1 1 5 6 7 8 9 10 11 12 13 5
      4 2 ncFifoType_t.NC_FIFO_HOST_WO ncFifoType_t.NC_FIFO_HOST_RO
      ncFifoDataType_t.NC_FIFO_FP32 ncFifoDataType_t.NC_FIFO_FP32 (by decide)).1⟩

/-- C2: every façade operation of src/ncs.cpp invokes its corresponding
driver operation exactly once per call (its driver-call trace is the one-element
list of that call), passing each caller argument unchanged apart from
pointer-type casts (identities on addresses), with no validation of argument
values and no retries: the result is exactly the driver's, for every
driver response.  `ncs_GraphAllocateWithFifos` reaches the driver through
`ncs_GraphAllocateWithFifosEx`, so its single driver call carries its six
arguments unchanged plus the literal defaults. -/
theorem ncs_c2_forward_once (D : Driver σ) (w : World σ)
    (idx option inNe outNe : Int) (dh gh fh gb td name buf len up od : Ptr)
    (gbl ne : Nat) (ft oft : ncFifoType_t) (dt odt : ncFifoDataType_t)
    (hod : od ≠ NULL) :
    ncs_DeviceCreate D w idx dh
      = ((D.step w (.deviceCreate idx dh)).1, (D.step w (.deviceCreate idx dh)).2,
         [DrvCall.deviceCreate idx dh])
  ∧ ncs_DeviceOpen D w dh
      = ((D.step w (.deviceOpen dh)).1, (D.step w (.deviceOpen dh)).2,
         [DrvCall.deviceOpen dh])
  ∧ ncs_DeviceClose D w dh
      = ((D.step w (.deviceClose dh)).1, (D.step w (.deviceClose dh)).2,
         [DrvCall.deviceClose dh])
  ∧ ncs_DeviceDestroy D w dh
      = ((D.step w (.deviceDestroy dh)).1, (D.step w (.deviceDestroy dh)).2,
         [DrvCall.deviceDestroy dh])
  ∧ ncs_GraphCreate D w name gh
      = ((D.step w (.graphCreate name gh)).1, (D.step w (.graphCreate name gh)).2,
         [DrvCall.graphCreate name gh])
  ∧ ncs_GraphAllocate D w dh gh gb gbl
      = ((D.step w (.graphAllocate dh gh gb gbl)).1,
         (D.step w (.graphAllocate dh gh gb gbl)).2,
         [DrvCall.graphAllocate dh gh gb gbl])
  ∧ ncs_GraphAllocateWithFifosEx D w dh gh gb gbl buf ft inNe dt len oft outNe odt
      = ((D.step w (.graphAllocateWithFifosEx dh gh gb gbl buf ft inNe dt len oft outNe odt)).1,
         (D.step w (.graphAllocateWithFifosEx dh gh gb gbl buf ft inNe dt len oft outNe odt)).2,
         [DrvCall.graphAllocateWithFifosEx dh gh gb gbl buf ft inNe dt len oft outNe odt])
  ∧ ncs_GraphAllocateWithFifos D w dh gh gb gbl buf len
      = ((D.step w (.graphAllocateWithFifosEx dh gh gb gbl
            buf .NC_FIFO_HOST_WO 2 .NC_FIFO_FP32 len .NC_FIFO_HOST_RO 2 .NC_FIFO_FP32)).1,
         (D.step w (.graphAllocateWithFifosEx dh gh gb gbl
            buf .NC_FIFO_HOST_WO 2 .NC_FIFO_FP32 len .NC_FIFO_HOST_RO 2 .NC_FIFO_FP32)).2,
         [DrvCall.graphAllocateWithFifosEx dh gh gb gbl
            buf .NC_FIFO_HOST_WO 2 .NC_FIFO_FP32 len .NC_FIFO_HOST_RO 2 .NC_FIFO_FP32])
  ∧ ncs_GraphDestroy D w gh
      = ((D.step w (.graphDestroy gh)).1, (D.step w (.graphDestroy gh)).2,
         [DrvCall.graphDestroy gh])
  ∧ ncs_FifoCreate D w name ft fh
      = ((D.step w (.fifoCreate name ft fh)).1, (D.step w (.fifoCreate name ft fh)).2,
         [DrvCall.fifoCreate name ft fh])
  ∧ ncs_FifoAllocate D w fh dh td ne
      = ((D.step w (.fifoAllocate fh dh td ne)).1, (D.step w (.fifoAllocate fh dh td ne)).2,
         [DrvCall.fifoAllocate fh dh td ne])
  ∧ ncs_FifoGetOption D w fh option od
      = some ((D.step w (.fifoGetOption fh option
            (OptionsData.dataAddr od) (OptionsData.lengthAddr od))).1,
         (D.step w (.fifoGetOption fh option
            (OptionsData.dataAddr od) (OptionsData.lengthAddr od))).2,
         [DrvCall.fifoGetOption fh option
            (OptionsData.dataAddr od) (OptionsData.lengthAddr od)])
  ∧ ncs_FifoWriteElem D w fh buf len up
      = ((D.step w (.fifoWriteElem fh buf len up)).1,
         (D.step w (.fifoWriteElem fh buf len up)).2,
         [DrvCall.fifoWriteElem fh buf len up])
  ∧ ncs_FifoReadElem D w fh buf len up
      = ((D.step w (.fifoReadElem fh buf len up)).1,
         (D.step w (.fifoReadElem fh buf len up)).2,
         [DrvCall.fifoReadElem fh buf len up])
  ∧ ncs_FifoDestroy D w fh
      = ((D.step w (.fifoDestroy fh)).1, (D.step w (.fifoDestroy fh)).2,
         [DrvCall.fifoDestroy fh]) := by
  refine ⟨rfl, rfl, rfl, rfl, rfl, rfl, rfl, rfl, rfl, rfl, rfl, ?_, rfl, rfl, rfl⟩
  simp [ncs_FifoGetOption, hod]

/-- Closed witness for C2: hypotheses are satisfiable; at a concrete driver,
world and arguments, graph-allocate is exactly one driver call with the
arguments unchanged. -/
theorem ncs_c2_w :
    (5 : Ptr) ≠ NULL
  ∧ ncs_GraphAllocate constDriver world0 5 6 8 4
      = ((constDriver.step world0 (.graphAllocate 5 6 8 4)).1,
         (constDriver.step world0 (.graphAllocate 5 6 8 4)).2,
         [DrvCall.graphAllocate 5 6 8 4]) :=
  ⟨by decide,
   (ncs_c2_forward_once constDriver world0 0 0 1 1 5 6 7 8 9 10 11 12 13 5
      4 2 ncFifoType_t.NC_FIFO_HOST_WO ncFifoType_t.NC_FIFO_HOST_RO
      ncFifoDataType_t.NC_FIFO_FP32 ncFifoDataType_t.NC_FIFO_FP32
      (by decide)).2.2.2.2.2.1⟩

/-- C3: `ncs_GraphAllocateWithFifos` returns the same result and has the same
effect as `ncs_GraphAllocateWithFifosEx` called with the same device handle,
graph handle, graph buffer, buffer length and FIFO-handle out-parameters plus
the defaults host-write-only / host-read-only FIFO types, capacity 2, and
32-bit float data type on both directions; hence its single driver call (which
creates the FIFOs) carries exactly the documented default capacity (2) and
data type (FP32) for both FIFOs. -/
theorem ncs_c3_withFifos_defaults (D : Driver σ) (w : World σ)
    (dh gh gb : Ptr) (gbl : Nat) (inF outF : Ptr) :
    ncs_GraphAllocateWithFifos D w dh gh gb gbl inF outF
      = ncs_GraphAllocateWithFifosEx D w dh gh gb gbl
          inF ncFifoType_t.NC_FIFO_HOST_WO 2 ncFifoDataType_t.NC_FIFO_FP32
          outF ncFifoType_t.NC_FIFO_HOST_RO 2 ncFifoDataType_t.NC_FIFO_FP32
  ∧ (ncs_GraphAllocateWithFifos D w dh gh gb gbl inF outF).2.2
      = [DrvCall.graphAllocateWithFifosEx dh gh gb gbl
          inF .NC_FIFO_HOST_WO 2 .NC_FIFO_FP32
          outF .NC_FIFO_HOST_RO 2 .NC_FIFO_FP32] :=
  ⟨rfl, rfl⟩

/-- C4: the façade destroy wrappers pass the address of the caller's handle
variable to the driver unchanged, so for any driver whose destroy operations
satisfy the spec ("destroy (given handle) → frees it and nulls the
reference"), after `ncs_DeviceDestroy`, `ncs_GraphDestroy` or
`ncs_FifoDestroy` returns success the caller's handle cell holds `NULL`. -/
theorem ncs_c4_destroy_nulls (D : Driver σ)
    (hdev : ∀ (w : World σ) (p : Ptr), (D.step w (.deviceDestroy p)).2 = NC_OK →
      ((D.step w (.deviceDestroy p)).1).mem p = NULL)
    (hgraph : ∀ (w : World σ) (p : Ptr), (D.step w (.graphDestroy p)).2 = NC_OK →
      ((D.step w (.graphDestroy p)).1).mem p = NULL)
    (hfifo : ∀ (w : World σ) (p : Ptr), (D.step w (.fifoDestroy p)).2 = NC_OK →
      ((D.step w (.fifoDestroy p)).1).mem p = NULL)
    (w : World σ) (p : Ptr) :
    ((ncs_DeviceDestroy D w p).2.1 = NC_OK → ((ncs_DeviceDestroy D w p).1).mem p = NULL)
  ∧ ((ncs_GraphDestroy D w p).2.1 = NC_OK → ((ncs_GraphDestroy D w p).1).mem p = NULL)
  ∧ ((ncs_FifoDestroy D w p).2.1 = NC_OK → ((ncs_FifoDestroy D w p).1).mem p = NULL) :=
  ⟨fun h => hdev w p h, fun h => hgraph w p h, fun h => hfifo w p h⟩

/-- A world over a unit driver state whose every memory cell holds `7` (a
stand-in for a live handle value before destruction). -/
def world7 : World Unit := { drv := (), mem := fun _ => 7 }

/-- Closed witness for C4: with the spec-conforming nulling mock driver, a
concrete handle cell holding `7` holds `NULL` after each destroy. -/
theorem ncs_c4_w :
    ((ncs_DeviceDestroy nullingDriver world7 5).1).mem 5 = NULL
  ∧ ((ncs_GraphDestroy nullingDriver world7 5).1).mem 5 = NULL
  ∧ ((ncs_FifoDestroy nullingDriver world7 5).1).mem 5 = NULL :=
  have hdev : ∀ (w : World Unit) (p : Ptr),
      (nullingDriver.step w (.deviceDestroy p)).2 = NC_OK →
      ((nullingDriver.step w (.deviceDestroy p)).1).mem p = NULL := by
    intro w p _
    simp [nullingDriver, memUpd]
  have hgraph : ∀ (w : World Unit) (p : Ptr),
      (nullingDriver.step w (.graphDestroy p)).2 = NC_OK →
      ((nullingDriver.step w (.graphDestroy p)).1).mem p = NULL := by
    intro w p _
    simp [nullingDriver, memUpd]
  have hfifo : ∀ (w : World Unit) (p : Ptr),
      (nullingDriver.step w (.fifoDestroy p)).2 = NC_OK →
      ((nullingDriver.step w (.fifoDestroy p)).1).mem p = NULL := by
    intro w p _
    simp [nullingDriver, memUpd]
  have h := ncs_c4_destroy_nulls nullingDriver hdev hgraph hfifo world7 5
  ⟨h.1 rfl, h.2.1 rfl, h.2.2 rfl⟩

/-- C5: the façade's device get-option operation forwards the device handle,
option identifier, buffer pointer and in/out length pointer to the driver in
a single call and returns its status; whatever option data and actual length
the driver writes through those out-pointers is exactly what the caller
observes after the façade call (the façade neither touches the buffer nor the
length). -/
theorem ncs_c5_deviceGetOption (D : Driver σ) (w : World σ) (dh : Ptr) (option : Int)
    (data dlen : Ptr) :
    ncs_DeviceGetOption D w dh option data dlen
      = ((D.step w (.deviceGetOption dh option data dlen)).1,
         (D.step w (.deviceGetOption dh option data dlen)).2,
         [DrvCall.deviceGetOption dh option data dlen])
  ∧ (∀ v n : Nat,
      ((D.step w (.deviceGetOption dh option data dlen)).1).mem data = v →
      ((D.step w (.deviceGetOption dh option data dlen)).1).mem dlen = n →
      ((ncs_DeviceGetOption D w dh option data dlen).1).mem data = v
        ∧ ((ncs_DeviceGetOption D w dh option data dlen).1).mem dlen = n) :=
  ⟨rfl, fun _ _ hv hn => ⟨hv, hn⟩⟩

/-- Closed witness for C5: with the filling mock driver, after a concrete
device get-option call the caller's buffer holds the option data `42` and the
length cell holds the actual length `4`. -/
theorem ncs_c5_w :
    ((ncs_DeviceGetOption fillDriver world0 3 0 10 20).1).mem 10 = 42
  ∧ ((ncs_DeviceGetOption fillDriver world0 3 0 10 20).1).mem 20 = 4 :=
  (ncs_c5_deviceGetOption fillDriver world0 3 0 10 20).2 42 4 (by decide) (by decide)

/-- C6: the most complete variant of the binding includes the graph
queue-inference operations and the graph get-option operation; each forwards
its arguments to the corresponding driver call in a single invocation and
returns the driver's status. -/
theorem ncs_c6_complete_variant (D : Driver σ) (w : World σ)
    (gh inF outF it itl up data dlen : Ptr) (inCnt outCnt : Nat) (option : Int) :
    ncs_GraphQueueInference D w gh inF inCnt outF outCnt
      = ((D.step w (.graphQueueInference gh inF inCnt outF outCnt)).1,
         (D.step w (.graphQueueInference gh inF inCnt outF outCnt)).2,
         [DrvCall.graphQueueInference gh inF inCnt outF outCnt])
  ∧ ncs_GraphQueueInferenceWithFifoElem D w gh inF outF it itl up
      = ((D.step w (.graphQueueInferenceWithFifoElem gh inF outF it itl up)).1,
         (D.step w (.graphQueueInferenceWithFifoElem gh inF outF it itl up)).2,
         [DrvCall.graphQueueInferenceWithFifoElem gh inF outF it itl up])
  ∧ ncs_GraphGetOption D w gh option data dlen
      = ((D.step w (.graphGetOption gh option data dlen)).1,
         (D.step w (.graphGetOption gh option data dlen)).2,
         [DrvCall.graphGetOption gh option data dlen]) :=
  ⟨rfl, rfl, rfl⟩

/-- C7: with the driver modelled as an order-preserving queue that echoes
elements, writing the elements of `xs` through `ncs_FifoWriteElem` (each one
first stored by the caller in its input buffer) and then reading `xs.length`
elements back through `ncs_FifoReadElem` returns exactly `xs` in submission
order: the façade introduces no reordering across the boundary. -/
theorem ncs_c7_fifo_order (fifoW fifoR bufIn bufOut lenW lenR upW upR : Ptr)
    (w : World (List Nat)) (xs : List Nat) (h : w.drv = []) :
    (readSeq echoDriver fifoR bufOut lenR upR
        (writeSeq echoDriver fifoW bufIn lenW upW w xs) xs.length).1 = xs := by
  have hdrv : (writeSeq echoDriver fifoW bufIn lenW upW w xs).drv = xs := by
    rw [writeSeq_echo_drv, h]
    simp
  rw [readSeq_echo_take fifoR bufOut lenR upR xs.length _ (by simp [hdrv]), hdrv]
  simp

/-- Closed witness for C7: three concrete elements written to the echo driver
come back in the order they were submitted. -/
theorem ncs_c7_w :
    (readSeq echoDriver 2 20 31 41
        (writeSeq echoDriver 1 10 30 40 { drv := [], mem := fun _ => 0 } [3, 1, 2])
        3).1 = [3, 1, 2] :=
  ncs_c7_fifo_order 1 2 10 20 30 31 40 41 { drv := [], mem := fun _ => 0 } [3, 1, 2] rfl

/-- C8: `ncs_DeviceClose` on an already-closed device completes normally
(it is a total forwarding function) and surfaces the driver's status for that
second close unchanged, for every driver; concretely, with a mock device
driver whose close on a closed device reports the "not open" error `-8`, the
open-close-close sequence returns `-8` from the second close, unmasked. -/
theorem ncs_c8_double_close :
    (∀ (σ2 : Type) (D : Driver σ2) (w : World σ2) (dh : Ptr),
      (ncs_DeviceClose D (ncs_DeviceClose D (ncs_DeviceOpen D w dh).1 dh).1 dh).2.1
        = (D.step (ncs_DeviceClose D (ncs_DeviceOpen D w dh).1 dh).1 (.deviceClose dh)).2)
  ∧ (ncs_DeviceClose mockDevDriver
      (ncs_DeviceClose mockDevDriver
        (ncs_DeviceOpen mockDevDriver { drv := false, mem := fun _ => 0 } 9).1 9).1 9).2.1
      = -8 :=
  ⟨fun _ _ _ _ => rfl, rfl⟩

/-- C9: the façade holds no mutable state between calls: any two invocations
of the same façade operation with identical arguments against identical
driver responses produce identical statuses, identical traces, and identical
resulting worlds — a façade call's result depends on nothing but the driver's
response, so no prior façade call can influence it except through the
driver's own state. -/
theorem ncs_c9_stateless (D E : Driver σ) (w v : World σ)
    (hresp : ∀ c : DrvCall, D.step w c = E.step v c) :
    ∀ fc : FacadeCall, facadeRun D w fc = facadeRun E v fc := by
  intro fc
  cases fc <;>
    simp [facadeRun, ncs_DeviceCreate, ncs_DeviceOpen, ncs_DeviceClose, ncs_DeviceDestroy,
      ncs_GraphCreate, ncs_GraphAllocate, ncs_GraphAllocateWithFifos,
      ncs_GraphAllocateWithFifosEx, ncs_GraphDestroy, ncs_FifoCreate, ncs_FifoAllocate,
      ncs_FifoGetOption, ncs_FifoWriteElem, ncs_FifoReadElem, ncs_FifoDestroy, hresp]

/-- Closed witness for C9: the state-ignoring mock driver responds identically
from two different caller memories, and the façade's device-open results from
those two worlds coincide. -/
theorem ncs_c9_w :
    facadeRun constDriver { drv := (), mem := fun _ => 1 } (FacadeCall.deviceOpen 5)
      = facadeRun constDriver { drv := (), mem := fun _ => 2 } (FacadeCall.deviceOpen 5) :=
  ncs_c9_stateless constDriver constDriver
    { drv := (), mem := fun _ => 1 } { drv := (), mem := fun _ => 2 }
    (fun _ => rfl) (FacadeCall.deviceOpen 5)

/-- C10: `ncs_FifoGetOption` alone requires a non-null `optionsData`: it
performs the member accesses `optionsData->data` and `&(optionsData->length)`
itself before delegating, so on a null `optionsData` it faults inside the
façade (`none`) before any driver call, while on a non-null one it passes the
member addresses to the driver; every other façade operation forwards its
pointer arguments to the driver without dereferencing them, so even a null
handle (or null buffer, length, or out-parameter pointer) reaches the driver
unchecked as the argument of its single driver call. -/
theorem ncs_c10_fifoGetOption_deref (D : Driver σ) (w : World σ) (fh : Ptr) (option : Int)
    (od : Ptr) (hod : od ≠ NULL) (idx inNe outNe : Int) (gbl ne : Nat)
    (ft : ncFifoType_t) (dt : ncFifoDataType_t) :
    ncs_FifoGetOption D w fh option NULL = none
  ∧ ncs_FifoGetOption D w fh option od
      = some ((D.step w (.fifoGetOption fh option
            (OptionsData.dataAddr od) (OptionsData.lengthAddr od))).1,
         (D.step w (.fifoGetOption fh option
            (OptionsData.dataAddr od) (OptionsData.lengthAddr od))).2,
         [DrvCall.fifoGetOption fh option
            (OptionsData.dataAddr od) (OptionsData.lengthAddr od)])
  ∧ (ncs_DeviceCreate D w idx NULL).2.2 = [DrvCall.deviceCreate idx NULL]
  ∧ (ncs_DeviceOpen D w NULL).2.2 = [DrvCall.deviceOpen NULL]
  ∧ (ncs_DeviceClose D w NULL).2.2 = [DrvCall.deviceClose NULL]
  ∧ (ncs_DeviceDestroy D w NULL).2.2 = [DrvCall.deviceDestroy NULL]
  ∧ (ncs_GraphCreate D w NULL NULL).2.2 = [DrvCall.graphCreate NULL NULL]
  ∧ (ncs_GraphAllocate D w NULL NULL NULL gbl).2.2
      = [DrvCall.graphAllocate NULL NULL NULL gbl]
  ∧ (ncs_GraphAllocateWithFifosEx D w NULL NULL NULL gbl NULL ft inNe dt
        NULL ft outNe dt).2.2
      = [DrvCall.graphAllocateWithFifosEx NULL NULL NULL gbl NULL ft inNe dt
          NULL ft outNe dt]
  ∧ (ncs_GraphAllocateWithFifos D w NULL NULL NULL gbl NULL NULL).2.2
      = [DrvCall.graphAllocateWithFifosEx NULL NULL NULL gbl
          NULL .NC_FIFO_HOST_WO 2 .NC_FIFO_FP32 NULL .NC_FIFO_HOST_RO 2 .NC_FIFO_FP32]
  ∧ (ncs_GraphDestroy D w NULL).2.2 = [DrvCall.graphDestroy NULL]
  ∧ (ncs_FifoCreate D w NULL ft NULL).2.2 = [DrvCall.fifoCreate NULL ft NULL]
  ∧ (ncs_FifoAllocate D w NULL NULL NULL ne).2.2 = [DrvCall.fifoAllocate NULL NULL NULL ne]
  ∧ (ncs_FifoWriteElem D w NULL NULL NULL NULL).2.2
      = [DrvCall.fifoWriteElem NULL NULL NULL NULL]
  ∧ (ncs_FifoReadElem D w NULL NULL NULL NULL).2.2
      = [DrvCall.fifoReadElem NULL NULL NULL NULL]
  ∧ (ncs_FifoDestroy D w NULL).2.2 = [DrvCall.fifoDestroy NULL] := by
  refine ⟨rfl, ?_, rfl, rfl, rfl, rfl, rfl, rfl, rfl, rfl, rfl, rfl, rfl, rfl, rfl, rfl⟩
  simp [ncs_FifoGetOption, hod]

/-- Closed witness for C10: the hypothesis is satisfiable, and at a concrete
driver and arguments a null `optionsData` makes `ncs_FifoGetOption` fault in
the façade. -/
theorem ncs_c10_w :
    (5 : Ptr) ≠ NULL ∧ ncs_FifoGetOption constDriver world0 3 7 NULL = none :=
  ⟨by decide,
   (ncs_c10_fifoGetOption_deref constDriver world0 3 7 5 (by decide) 0 1 1 4 2
      ncFifoType_t.NC_FIFO_HOST_WO ncFifoDataType_t.NC_FIFO_FP32).1⟩
